import Mathlib

/-!
# Verification of the Helpdesk-Bot command execution gateway

Shallow embedding of `modules/system_commands.py`, `modules/security.py`,
`modules/automated_diagnostics.py` and `config.py` of the Helpdesk-Bot
repository, together with theorems settling the specification claims about
validation, caching, timeouts, elevation handling, output truncation and
issue categorization.

Python strings are modelled as Lean `String` values; the Python string
operations used by the source (`lower`, `strip`, `startswith`, the `in`
substring test, slicing and `len`) are given explicit definitions over the
underlying character lists.
-/

namespace HelpdeskBot

/-! ## Python string primitives -/

/-- Python `pat in s` on character lists: `pat` occurs as a contiguous
substring of `s`. -/
def strContains (s pat : List Char) : Bool :=
  match s with
  | [] => pat.isEmpty
  | _ :: t => pat.isPrefixOf s || strContains t pat

/-- Python `pat in s` for strings. -/
def pyIn (pat s : String) : Bool :=
  strContains s.data pat.data

/-- Python `s.startswith(pre)`. -/
def pyStartsWith (s pre : String) : Bool :=
  pre.data.isPrefixOf s.data

/-- Python `s.lower()` (ASCII, which covers every string in the policy
tables and every command the source lowers). -/
def pyLower (s : String) : String :=
  ⟨s.data.map Char.toLower⟩

/-- Characters removed by Python `str.strip()`. -/
def stripChars (l : List Char) : List Char :=
  ((l.dropWhile Char.isWhitespace).reverse.dropWhile Char.isWhitespace).reverse

/-- Python `s.strip()`. -/
def pyStrip (s : String) : String :=
  ⟨stripChars s.data⟩

/-- Python `len(s)` (character count). -/
def pyLen (s : String) : Nat :=
  s.data.length

/-- Python `s[:n]` (first `n` characters). -/
def pySlice (s : String) (n : Nat) : String :=
  ⟨s.data.take n⟩

/-! ## `config.py` -/

namespace Config

def COMMAND_TIMEOUT : Nat := 30
def MAX_COMMAND_OUTPUT : Nat := 10000
def QUICK_COMMAND_TIMEOUT : Nat := 10
def MEDIUM_COMMAND_TIMEOUT : Nat := 15
def SLOW_COMMAND_TIMEOUT : Nat := 30
def CACHE_TIMEOUT : Nat := 30
def MAX_MESSAGE_LENGTH : Nat := 1000

/-- `Config.WINDOWS_COMMANDS`. -/
def WINDOWS_COMMANDS : List String := [
  "ipconfig", "ping", "nslookup", "netstat", "tracert", "route", "arp",
  "getmac", "netsh", "netstat -an", "ipconfig /flushdns",
  "systeminfo", "tasklist", "sfc", "chkdsk", "dir", "type", "echo",
  "wmic", "systeminfo", "ver", "hostname", "whoami", "pwd",
  "wmic printer list brief", "wmic logicaldisk get size,freespace,caption",
  "wmic cpu get name", "wmic memorychip get capacity", "wmic bios get version",
  "wmic path win32_pnpentity get name,status", "devmgmt.msc",
  "wmic sounddev get name", "wmic diskdrive get size",
  "tasklist /v", "wmic process get name,processid,workingsetsize",
  "wmic cpu get loadpercentage", "perfmon", "resmon",
  "sfc /scannow", "DISM /Online /Cleanup-Image /RestoreHealth",
  "wmic qfe get hotfixid", "gpresult /r",
  "dir C:\\ /s", "tree", "attrib", "copy", "move", "del",
  "sc query", "net start", "net stop", "services.msc",
  "reg query", "reg add", "reg delete",
  "net user", "net localgroup", "whoami /all",
  "wevtutil qe system", "wevtutil qe application",
  "powercfg /list", "powercfg /query",
  "netsh wlan show profiles", "netsh interface show interface",
  "netsh advfirewall show allprofiles"]

/-- `Config.MACOS_COMMANDS`. -/
def MACOS_COMMANDS : List String := [
  "ifconfig", "ping", "nslookup", "netstat", "traceroute", "route", "arp",
  "networksetup", "scutil", "airport", "netstat -an",
  "system_profiler", "ps", "df", "free", "ls", "cat", "echo",
  "uname", "hostname", "whoami", "pwd", "sw_vers",
  "system_profiler SPHardwareDataType", "system_profiler SPUSBDataType",
  "system_profiler SPAudioDataType", "system_profiler SPDisplaysDataType",
  "ioreg", "diskutil list", "diskutil info",
  "ps aux --sort=-%cpu | head -20", "top -l 1", "vm_stat",
  "iostat", "netstat -i", "lsof -i",
  "sudo /usr/libexec/repair_packages --verify", "system_profiler SPSoftwareDataType",
  "sudo /usr/libexec/repair_packages --verify --standard-pkgs",
  "ls -la", "du -sh", "find", "cp", "mv", "rm",
  "launchctl list", "sudo launchctl load", "sudo launchctl unload",
  "dscl . list /Users", "id", "groups",
  "log show", "sudo log show --predicate",
  "pmset -g", "pmset -g therm", "pmset -g batt",
  "networksetup -listallnetworkservices", "networksetup -getinfo",
  "sudo dscacheutil -flushcache", "sudo killall -HUP mDNSResponder",
  "sudo system_profiler", "sudo diskutil", "sudo ioreg",
  "sudo networksetup", "sudo launchctl", "sudo dscacheutil",
  "sudo killall", "sudo repair_packages", "sudo log show",
  "sudo pmset", "sudo iostat", "sudo vm_stat",
  "lpstat -p", "lpstat -a", "lpstat -d",
  "system_profiler SPPrintersDataType",
  "system_profiler SPAudioDataType", "system_profiler SPAudioDevicesDataType",
  "system_profiler SPBluetoothDataType",
  "sudo /usr/libexec/ApplicationFirewall/socketfilterfw",
  "csrutil status",
  "spctl --status",
  "system_profiler SPInstallHistoryDataType"]

/-- `Config.LINUX_COMMANDS`. -/
def LINUX_COMMANDS : List String := [
  "ifconfig", "ping", "nslookup", "ps", "df", "free",
  "netstat", "traceroute", "route", "arp", "ip addr",
  "uname", "uptime", "who", "w", "top", "ls", "cat",
  "echo", "ps aux", "df -h", "free -h",
  "lscpu", "lsmem", "lspci", "lsusb", "lshw",
  "cat /proc/cpuinfo", "cat /proc/meminfo",
  "ps aux --sort=-%cpu | head -20", "top -n 1",
  "vmstat", "iostat", "netstat -i",
  "sudo apt update", "sudo apt upgrade", "sudo clamscan --recursive",
  "sudo chkrootkit", "sudo rkhunter --check",
  "ls -la", "du -sh", "find", "cp", "mv", "rm",
  "systemctl status", "systemctl list-units", "service --status-all",
  "cat /etc/passwd", "id", "groups", "who",
  "journalctl", "dmesg", "tail -f /var/log/syslog",
  "upower -i /org/freedesktop/UPower/devices/battery_BAT0",
  "nmcli device status", "nmcli connection show",
  "systemctl restart systemd-resolved"]

/-- `Config.BLOCKED_PATTERNS`. -/
def BLOCKED_PATTERNS : List String := [
  "rm -rf", "del /s", "format", "fdisk", "dd",
  "sudo", "su", "chmod 777", "chown root",
  "wget", "curl", "nc", "telnet", "ssh",
  "> /dev/", ">> /dev/", "| bash", "| sh"]

end Config

/-! ## `SystemCommands._is_command_safe` (system_commands.py, lines 203-227) -/

/-- The OS dispatch of `_is_command_safe`: `windows` gets the Windows table,
`darwin` the macOS table, everything else the Linux table. -/
def allowedCommandsFor (osType : String) : List String :=
  if osType = "windows" then Config.WINDOWS_COMMANDS
  else if osType = "darwin" then Config.MACOS_COMMANDS
  else Config.LINUX_COMMANDS

/-- `SystemCommands._is_command_safe`: lower-case the command, reject on any
blocked pattern, otherwise accept exactly when the lowered command starts
with an approved entry for the instance's OS. -/
def isCommandSafe (command osType : String) : Bool :=
  let cl := pyLower command
  if Config.BLOCKED_PATTERNS.any (fun p => pyIn p cl) then false
  else (allowedCommandsFor osType).any (fun a => pyStartsWith cl a)

/-! ## `SecurityValidator.is_command_safe` (security.py, lines 16-57) -/

def DANGEROUS_OPERATORS : List String :=
  ["&&", "||", ";", "|", ">", ">>", "<", "<<", "`", "$("]

def TRAVERSAL_PATTERNS : List String :=
  ["../", "..\\", "/etc/", "/var/", "/usr/", "C:\\Windows\\"]

def NETWORK_DANGEROUS : List String :=
  ["nc", "netcat", "telnet", "ssh", "wget", "curl", "ftp"]

def PRIVILEGE_PATTERNS : List String :=
  ["sudo", "su", "runas", "elevate", "admin"]

/-- `SecurityValidator.is_command_safe`: the separate validator class, which
additionally rejects dangerous shell operators (checked against the raw
command), traversal markers, network tools and privilege tokens.  It is not
consulted by `SystemCommands.execute_command`. -/
def validatorIsCommandSafe (command : String) : Bool :=
  if command = "" then false
  else
    let cl := pyStrip (pyLower command)
    if Config.BLOCKED_PATTERNS.any (fun p => pyIn (pyLower p) cl) then false
    else if DANGEROUS_OPERATORS.any (fun op => pyIn op command) then false
    else if TRAVERSAL_PATTERNS.any (fun p => pyIn (pyLower p) cl) then false
    else if NETWORK_DANGEROUS.any (fun c => pyIn c cl) then false
    else if PRIVILEGE_PATTERNS.any (fun p => pyIn p cl) then false
    else true

/-! ## Timeout classifier, cacheability, categorization -/

/-- `SystemCommands._get_command_timeout` (system_commands.py, lines 106-127). -/
def getCommandTimeout (command osType : String) : Nat :=
  let cl := pyLower command
  if ["ping", "nslookup", "ipconfig", "ifconfig", "echo"].any (fun c => pyIn c cl) then
    Config.QUICK_COMMAND_TIMEOUT
  else if ["tasklist", "ps", "df", "free", "uname"].any (fun c => pyIn c cl) then
    Config.MEDIUM_COMMAND_TIMEOUT
  else if ["systeminfo", "system_profiler", "sfc", "chkdsk"].any (fun c => pyIn c cl) then
    Config.SLOW_COMMAND_TIMEOUT
  else if osType = "darwin" ∧
      (["system_profiler", "diskutil", "ioreg"].any (fun c => pyIn c cl)) = true then
    Config.SLOW_COMMAND_TIMEOUT
  else
    Config.COMMAND_TIMEOUT

/-- `SystemCommands._is_quick_command` (system_commands.py, lines 153-162):
whether the command is cached. -/
def isQuickCommand (command osType : String) : Bool :=
  let cl := pyLower command
  let quick := ["ping", "nslookup", "ipconfig", "ifconfig", "echo", "uname", "df"] ++
    (if osType = "darwin" then ["hostname", "whoami", "pwd", "sw_vers"] else [])
  quick.any (fun c => pyIn c cl)

/-- `AutomatedDiagnostics.categorize_user_issue`
(automated_diagnostics.py, lines 275-288). -/
def categorizeUserIssue (userMessage : String) : String :=
  let ml := pyLower userMessage
  if ["internet", "wifi", "network", "connection", "ping", "dns"].any
      (fun w => pyIn w ml) then "network"
  else if ["slow", "freeze", "crash", "performance", "lag"].any
      (fun w => pyIn w ml) then "performance"
  else if ["disk", "storage", "space", "full", "memory"].any
      (fun w => pyIn w ml) then "storage"
  else if ["error", "blue screen", "kernel", "system"].any
      (fun w => pyIn w ml) then "system"
  else "general"

/-! ## The gateway state and `execute_command` (system_commands.py, lines 15-104) -/

/-- The result dictionary built by `execute_command`.  `requiresPassword`,
`returnCode` and `executionTime` model dictionary keys that are present only
on some paths (`result.get` treats a missing key as falsy/`None`). -/
structure ExecResult where
  success : Bool
  output : String
  error : Option String
  returnCode : Option Int
  executionTime : Option Nat
  requiresPassword : Bool
deriving DecidableEq, Repr

/-- A value of `self.command_cache`: `{'result': ..., 'timestamp': ...}`. -/
structure CacheEntry where
  result : ExecResult
  timestamp : Nat
deriving DecidableEq, Repr

/-- The mutable fields of a `SystemCommands` instance.  `osType` is fixed at
construction (`platform.system().lower()`). -/
structure SysState where
  osType : String
  commandCache : List (String × CacheEntry)
  sudoPassword : Option String
deriving DecidableEq, Repr

/-- The instance field `self.cache_timeout = 30`. -/
def cacheTimeoutSecs : Nat := 30

/-- Python dictionary read: first (most recent) binding of the key. -/
def dictGet (m : List (String × CacheEntry)) (k : String) : Option CacheEntry :=
  match m with
  | [] => none
  | (k', v) :: t => if k' = k then some v else dictGet t k

/-- Python dictionary write: bind `k`, dropping any previous binding. -/
def dictInsert (m : List (String × CacheEntry)) (k : String) (v : CacheEntry) :
    List (String × CacheEntry) :=
  (k, v) :: m.filter (fun kv => decide (kv.1 ≠ k))

/-- Python `str` of a boolean: `True` / `False`. -/
def boolStr : Bool → String
  | true => "True"
  | false => "False"

/-- `f"{command}_{self.os_type}_{require_sudo}"` (line 31); Python renders
the booleans as `True`/`False`. -/
def cacheKey (command osType : String) (requireSudo : Bool) : String :=
  command ++ "_" ++ osType ++ "_" ++ boolStr requireSudo

/-- Lines 32-36: a cached result is used only when the entry exists and its
age is strictly below the cache timeout; a stale entry is left in place and
execution falls through. -/
def freshLookup (cache : List (String × CacheEntry)) (key : String) (now : Nat) :
    Option ExecResult :=
  match dictGet cache key with
  | some e => if now - e.timestamp < cacheTimeoutSecs then some e.result else none
  | none => none

/-- Outcome of the one `subprocess.run` call: normal completion with captured
streams and exit code, `subprocess.TimeoutExpired`, or any other exception
(message of the raised exception). -/
inductive RunOutcome where
  | completed (stdout stderr : String) (returncode : Int)
  | timedOut
  | raised (msg : String)
deriving DecidableEq, Repr

/-- Everything observable about one `execute_command` invocation: the
returned dictionary, the instance state afterwards, the log lines written,
and the exact command strings handed to `subprocess.run`. -/
structure ExecEffect where
  result : ExecResult
  state : SysState
  log : List String
  spawned : List String
deriving DecidableEq, Repr

/-- Line 56: `f"echo '{self.sudo_password}' | sudo -S {command}"`. -/
def elevatedCommand (pw command : String) : String :=
  "echo '" ++ pw ++ "' | sudo -S " ++ command

/-- Python truthiness of `self.sudo_password` at line 48
(`if not self.sudo_password`): both `None` and the empty string are falsy,
so the gate fires on either. -/
def noCredential : Option String → Bool
  | none => true
  | some pw => pw == ""

/-- The command actually executed once the elevation gate has been passed:
rewritten with the stored credential exactly when the OS is darwin,
elevation was requested and the stored credential is truthy (line 56 is
unreachable for `None` or an empty password — line 48 returns first). -/
def effCommand (st : SysState) (command : String) (requireSudo : Bool) : String :=
  if st.osType = "darwin" ∧ requireSudo = true then
    match st.sudoPassword with
    | some pw => if pw = "" then command else elevatedCommand pw command
    | none => command
  else command

/-- `SystemCommands.set_sudo_password` (lines 22-25). -/
def setSudoPassword (st : SysState) (password : String) : SysState :=
  { st with sudoPassword := some password }

/-- `SystemCommands.clear_cache` (lines 129-132). -/
def clearCache (st : SysState) : SysState :=
  { st with commandCache := [] }

/-- `SystemCommands.execute_command` (lines 27-104).  `runner` abstracts
`subprocess.run` (the environment's behaviour for a given command string and
timeout); `now` is the value returned by `time.time()` during the call. -/
def executeCommand (runner : String → Nat → RunOutcome) (now : Nat)
    (st : SysState) (command : String) (requireSudo : Bool) : ExecEffect :=
  let key := cacheKey command st.osType requireSudo
  match freshLookup st.commandCache key now with
  | some cached =>
      { result := cached, state := st,
        log := ["Using cached result for command: " ++ command], spawned := [] }
  | none =>
      if isCommandSafe command st.osType = true then
        if st.osType = "darwin" ∧ requireSudo = true ∧
            noCredential st.sudoPassword = true then
          let r : ExecResult :=
            { success := false, output := "",
              error := some "Sudo password required for this command. Please provide your password.",
              returnCode := none, executionTime := none, requiresPassword := true }
          { result := r, state := st, log := [], spawned := [] }
        else
          let cmdEff := effCommand st command requireSudo
          let tmo := getCommandTimeout cmdEff st.osType
          match runner cmdEff tmo with
          | .completed stdout stderr rc =>
              let output :=
                if pyLen stdout > Config.MAX_COMMAND_OUTPUT then
                  pySlice stdout Config.MAX_COMMAND_OUTPUT ++ "\n... (output truncated)"
                else stdout
              let resultData : ExecResult :=
                { success := rc == 0, output := output,
                  error := if stderr ≠ "" then some stderr else none,
                  returnCode := some rc, executionTime := some now,
                  requiresPassword := false }
              let newCache :=
                if isQuickCommand cmdEff st.osType = true then
                  dictInsert st.commandCache key { result := resultData, timestamp := now }
                else st.commandCache
              { result := resultData, state := { st with commandCache := newCache },
                log := [], spawned := [cmdEff] }
          | .timedOut =>
              let r : ExecResult :=
                { success := false, output := "",
                  error := some ("Command timed out after " ++ toString tmo ++ " seconds"),
                  returnCode := none, executionTime := none, requiresPassword := false }
              { result := r, state := st, log := [], spawned := [cmdEff] }
          | .raised msg =>
              let r : ExecResult :=
                { success := false, output := "",
                  error := some ("Command execution failed: " ++ msg),
                  returnCode := none, executionTime := none, requiresPassword := false }
              { result := r, state := st,
                log := ["Error executing command '" ++ cmdEff ++ "': " ++ msg],
                spawned := [cmdEff] }
      else
        let r : ExecResult :=
          { success := false, output := "Command not allowed for security reasons",
            error := some "Security validation failed",
            returnCode := none, executionTime := none, requiresPassword := false }
        { result := r, state := st, log := [], spawned := [] }

/-- States reachable through the public operations of a `SystemCommands`
instance, starting from construction (empty cache, no credential). -/
inductive Reachable : SysState → Prop where
  | init (osType : String) : Reachable ⟨osType, [], none⟩
  | exec (runner : String → Nat → RunOutcome) (now : Nat) (st : SysState)
      (command : String) (requireSudo : Bool) :
      Reachable st → Reachable (executeCommand runner now st command requireSudo).state
  | clear (st : SysState) : Reachable st → Reachable (clearCache st)
  | setpw (st : SysState) (pw : String) : Reachable st → Reachable (setSudoPassword st pw)

/-- Decidable well-formedness of a policy-table entry: nonempty, and neither
its first nor its last character is whitespace. -/
def tableEntryOk (a : String) : Bool :=
  !a.data.isEmpty && !(Char.isWhitespace a.data.head!) &&
    !(Char.isWhitespace a.data.reverse.head!)

/-! ## Helper lemmas -/

theorem strContains_iff_occurs (s pat : List Char) :
    strContains s pat = true ↔ pat <:+: s := by
  induction s with
  | nil =>
    simp only [strContains, List.isEmpty_iff]
    constructor
    · intro h; rw [h]
    · intro h; exact List.eq_nil_of_infix_nil h
  | cons a t ih =>
    simp only [strContains, Bool.or_eq_true, List.isPrefixOf_iff_prefix, ih,
      List.infix_cons_iff]

theorem strContains_of_within {l l' pat : List Char} (h : l <:+: l')
    (hc : strContains l pat = true) : strContains l' pat = true := by
  rw [strContains_iff_occurs] at hc ⊢
  exact hc.trans h

theorem stripChars_within (l : List Char) : stripChars l <:+: l := by
  unfold stripChars
  set A := l.dropWhile Char.isWhitespace with hA
  have h1 : A <:+ l := List.dropWhile_suffix _
  have h2 : A.reverse.dropWhile Char.isWhitespace <:+ A.reverse :=
    List.dropWhile_suffix _
  have h3 : (A.reverse.dropWhile Char.isWhitespace).reverse <+: A := by
    have := List.reverse_prefix.mpr h2
    rwa [List.reverse_reverse] at this
  exact h3.isInfix.trans h1.isInfix

theorem suffix_dropWhile_append (p : Char → Bool) (x : List Char) (d : Char)
    (y : List Char) (hd : p d = false) :
    (d :: y) <:+ List.dropWhile p (x ++ d :: y) := by
  induction x with
  | nil => simp [List.dropWhile_cons, hd]
  | cons a t ih =>
    rw [List.cons_append, List.dropWhile_cons]
    by_cases hpa : p a = true
    · simpa [hpa] using ih
    · simp only [hpa, if_false]
      exact (List.suffix_append t (d :: y)).trans (List.suffix_cons a _)

theorem prefix_stripChars {P l : List Char} (hok : P ≠ [])
    (hh : Char.isWhitespace P.head! = false)
    (hl : Char.isWhitespace P.reverse.head! = false)
    (hp : P <+: l) : P <+: stripChars l := by
  obtain ⟨r, rfl⟩ := hp
  obtain ⟨c, P', rfl⟩ := List.exists_cons_of_ne_nil hok
  have hc : Char.isWhitespace c = false := hh
  have hstep1 : ((c :: P') ++ r).dropWhile Char.isWhitespace = (c :: P') ++ r := by
    rw [List.cons_append, List.dropWhile_cons, hc]
    simp
  have hrevne : (c :: P').reverse ≠ [] := by simp
  obtain ⟨d, y, hdy⟩ := List.exists_cons_of_ne_nil hrevne
  have hdws : Char.isWhitespace d = false := by
    have := hl
    rw [hdy] at this
    exact this
  have hsuf : (c :: P').reverse <:+
      (((c :: P') ++ r).reverse).dropWhile Char.isWhitespace := by
    rw [List.reverse_append, hdy]
    exact suffix_dropWhile_append _ _ _ _ hdws
  unfold stripChars
  rw [hstep1]
  obtain ⟨w, hw⟩ := hsuf
  refine ⟨w.reverse, ?_⟩
  rw [← hw, List.reverse_append, List.reverse_reverse]

theorem dictGet_mem {m : List (String × CacheEntry)} {k : String} {v : CacheEntry}
    (h : dictGet m k = some v) : (k, v) ∈ m := by
  induction m with
  | nil => simp [dictGet] at h
  | cons kv t ih =>
    obtain ⟨k', v'⟩ := kv
    simp only [dictGet] at h
    split at h
    · next heq =>
        injection h with h
        subst heq
        subst h
        exact List.mem_cons_self _ _
    · exact List.mem_cons_of_mem _ (ih h)

theorem string_data_inj {a b : String} (h : a.data = b.data) : a = b := by
  cases a
  cases b
  exact congrArg String.mk h

theorem cacheKey_inj {c1 c2 os : String} {b1 b2 : Bool}
    (h : cacheKey c1 os b1 = cacheKey c2 os b2) : c1 = c2 ∧ b1 = b2 := by
  have hd := congrArg String.data h
  simp only [cacheKey, String.data_append] at hd
  have hT : (("True" : String)).data = ['T', 'r', 'u', 'e'] := rfl
  have hF : (("False" : String)).data = ['F', 'a', 'l', 's', 'e'] := rfl
  cases b1 <;> cases b2 <;> simp only [boolStr, hT, hF] at hd
  · refine ⟨?_, rfl⟩
    exact string_data_inj
      (List.append_cancel_right (List.append_cancel_right
        (List.append_cancel_right (List.append_cancel_right hd))))
  · exfalso
    have hd' : (c1.data ++ ("_" : String).data ++ os.data ++ ("_" : String).data ++ ['F']) ++
        ['a', 'l', 's', 'e'] =
        (c2.data ++ ("_" : String).data ++ os.data ++ ("_" : String).data) ++
        ['T', 'r', 'u', 'e'] := by
      simpa [List.append_assoc] using hd
    have h2 := (List.append_inj' hd' rfl).2
    simp at h2
  · exfalso
    have hd' : (c1.data ++ ("_" : String).data ++ os.data ++ ("_" : String).data) ++
        ['T', 'r', 'u', 'e'] =
        (c2.data ++ ("_" : String).data ++ os.data ++ ("_" : String).data ++ ['F']) ++
        ['a', 'l', 's', 'e'] := by
      simpa [List.append_assoc] using hd
    have h2 := (List.append_inj' hd' rfl).2
    simp at h2
  · refine ⟨?_, rfl⟩
    exact string_data_inj
      (List.append_cancel_right (List.append_cancel_right
        (List.append_cancel_right (List.append_cancel_right hd))))

theorem executeCommand_osType (runner : String → Nat → RunOutcome) (now : Nat)
    (st : SysState) (command : String) (requireSudo : Bool) :
    (executeCommand runner now st command requireSudo).state.osType = st.osType := by
  simp only [executeCommand]
  split
  · rfl
  · split
    · split
      · rfl
      · split <;> rfl
    · rfl

theorem isCommandSafe_eq_false_of_blocked {command : String} (osType : String)
    {p : String} (hp : p ∈ Config.BLOCKED_PATTERNS)
    (hin : pyIn p (pyLower command) = true) :
    isCommandSafe command osType = false := by
  unfold isCommandSafe
  have hany : Config.BLOCKED_PATTERNS.any (fun q => pyIn q (pyLower command)) = true :=
    List.any_eq_true.mpr ⟨p, hp, hin⟩
  simp [hany]

theorem tableOk (osType : String) :
    ∀ a ∈ allowedCommandsFor osType, tableEntryOk a = true := by
  unfold allowedCommandsFor
  split
  · decide
  · split
    · decide
    · decide

/-! ## Claim C1 -/

/-- C1 fails as stated: `"ping localhost && echo hi"` contains the shell
metacharacter `&&`, which the claim lists as a global-block entry, yet the
gateway's validator (`_is_command_safe`) accepts it for every OS family and
`execute_command` spawns a process for it.  The metacharacter check lives
only in the separate `SecurityValidator.is_command_safe`, which
`execute_command` never consults. -/
theorem C1_counterexample :
    pyIn "&&" "ping localhost && echo hi" = true ∧
    isCommandSafe "ping localhost && echo hi" "linux" = true ∧
    isCommandSafe "ping localhost && echo hi" "windows" = true ∧
    isCommandSafe "ping localhost && echo hi" "darwin" = true ∧
    (executeCommand (fun _ _ => RunOutcome.completed "" "" 0) 0 ⟨"linux", [], none⟩
        "ping localhost && echo hi" false).spawned = ["ping localhost && echo hi"] ∧
    validatorIsCommandSafe "ping localhost && echo hi" = false := by
  decide

/-- C1 (amended): for every command whose lower-cased form contains any entry
of the gateway's actual block set `Config.BLOCKED_PATTERNS` (`rm -rf`,
`del /s`, `format`, `fdisk`, `dd`, `sudo`, `su`, `chmod 777`, `chown root`,
`wget`, `curl`, `nc`, `telnet`, `ssh`, `> /dev/`, `>> /dev/`, `| bash`,
`| sh` — not the bare shell metacharacters), the gateway's validation rejects
it regardless of declared OS family and regardless of any approved-prefix
match, and `execute_command` spawns no process for it. -/
theorem C1_blocked_always_rejected (command p : String)
    (hp : p ∈ Config.BLOCKED_PATTERNS) (hin : pyIn p (pyLower command) = true) :
    (∀ osType, isCommandSafe command osType = false) ∧
    (∀ (runner : String → Nat → RunOutcome) (now : Nat) (st : SysState)
       (requireSudo : Bool),
       (executeCommand runner now st command requireSudo).spawned = []) := by
  refine ⟨fun osType => isCommandSafe_eq_false_of_blocked osType hp hin, ?_⟩
  intro runner now st requireSudo
  simp only [executeCommand]
  split
  · rfl
  · rw [isCommandSafe_eq_false_of_blocked st.osType hp hin]
    simp

/-- Witness for C1: the blocked entry `wget` inside `wget http://x` is
rejected on the Linux family and nothing is spawned. -/
theorem C1_witness :
    isCommandSafe "wget http://x" "linux" = false ∧
    (executeCommand (fun _ _ => RunOutcome.completed "" "" 0) 0 ⟨"linux", [], none⟩
        "wget http://x" false).spawned = [] := by
  have h := C1_blocked_always_rejected "wget http://x" "wget" (by decide) (by decide)
  exact ⟨h.1 "linux", h.2 _ 0 ⟨"linux", [], none⟩ false⟩

/-! ## Claim C2 -/

/-- C2 fails on the code: with the macOS family, elevation requested and the
credential `hunter2` stored, a command for which `subprocess.run` raises a
generic exception makes `execute_command` write the log line
`Error executing command 'echo 'hunter2' | sudo -S diskutil list': boom`,
which contains the stored sudo password — the elevation credential is
written to a log. -/
theorem C2_password_leaks_into_log :
    (executeCommand (fun _ _ => RunOutcome.raised "boom") 0
        ⟨"darwin", [], some "hunter2"⟩ "diskutil list" true).log =
      ["Error executing command 'echo 'hunter2' | sudo -S diskutil list': boom"] ∧
    ((executeCommand (fun _ _ => RunOutcome.raised "boom") 0
        ⟨"darwin", [], some "hunter2"⟩ "diskutil list" true).log.any
      fun line => pyIn "hunter2" line) = true := by
  decide

/-! ## Claim C3 -/

/-- C3: on the macOS family (`darwin`), for a command that passes validation
and misses the cache, requesting elevation with no stored credential yields
`success = false`, `requires_password = true` and no spawned process; after
`set_sudo_password secret` with a nonempty secret (an empty string is falsy
at the line-48 gate and still yields the requires-password result), the
identical call constructs the elevated invocation
`echo '<secret>' | sudo -S <command>` and spawns it. -/
theorem C3_elevation_gating (st : SysState) (command secret : String)
    (runner : String → Nat → RunOutcome) (now : Nat)
    (hos : st.osType = "darwin") (hpw : st.sudoPassword = none)
    (hsecret : secret ≠ "")
    (hsafe : isCommandSafe command "darwin" = true)
    (hmiss : freshLookup st.commandCache (cacheKey command "darwin" true) now = none) :
    ((executeCommand runner now st command true).result.success = false ∧
     (executeCommand runner now st command true).result.requiresPassword = true ∧
     (executeCommand runner now st command true).spawned = []) ∧
    (executeCommand runner now (setSudoPassword st secret) command true).spawned =
      [elevatedCommand secret command] := by
  obtain ⟨os, cache, pw⟩ := st
  simp only at hos hpw
  subst hos
  subst hpw
  constructor
  · simp only [executeCommand, hmiss, hsafe, if_true]
    simp [noCredential]
  · simp only [setSudoPassword, executeCommand]
    simp only [hmiss, hsafe, if_true]
    have hgate : ¬ (True ∧ True ∧ noCredential (some secret) = true) := by
      simp [noCredential, hsecret]
    rw [if_neg hgate]
    have heff : effCommand ⟨"darwin", cache, some secret⟩ command true =
        elevatedCommand secret command := by
      simp [effCommand, hsecret]
    rw [heff]
    cases runner (elevatedCommand secret command)
        (getCommandTimeout (elevatedCommand secret command) "darwin") <;> rfl

/-- Witness for C3 at a concrete state and command. -/
theorem C3_witness :
    ((executeCommand (fun _ _ => RunOutcome.completed "" "" 0) 0
        ⟨"darwin", [], none⟩ "diskutil list" true).result.success = false ∧
     (executeCommand (fun _ _ => RunOutcome.completed "" "" 0) 0
        ⟨"darwin", [], none⟩ "diskutil list" true).result.requiresPassword = true ∧
     (executeCommand (fun _ _ => RunOutcome.completed "" "" 0) 0
        ⟨"darwin", [], none⟩ "diskutil list" true).spawned = []) ∧
    (executeCommand (fun _ _ => RunOutcome.completed "" "" 0) 0
        (setSudoPassword ⟨"darwin", [], none⟩ "hunter2") "diskutil list" true).spawned =
      [elevatedCommand "hunter2" "diskutil list"] :=
  C3_elevation_gating ⟨"darwin", [], none⟩ "diskutil list" "hunter2"
    (fun _ _ => RunOutcome.completed "" "" 0) 0 rfl rfl (by decide) (by decide)
    (by decide)

/-! ## Claim C4 -/

/-- C4: (idempotence) if a call left the cache holding, under the key of
`(command, osType, requireSudo)`, exactly the result it returned stamped with
its own time `t1`, then a second call with the same triple at any `t2` with
`t2 - t1 <` the 30-second cache timeout returns that identical stored result
and spawns no subprocess; (expiry) once the entry's age reaches or exceeds
the timeout it is treated as absent and a fresh execution spawns the
command. -/
theorem C4_cache_idempotence_and_expiry :
    (∀ (st : SysState) (command : String) (requireSudo : Bool)
       (runner1 runner2 : String → Nat → RunOutcome) (t1 t2 : Nat),
       dictGet (executeCommand runner1 t1 st command requireSudo).state.commandCache
           (cacheKey command st.osType requireSudo) =
         some ⟨(executeCommand runner1 t1 st command requireSudo).result, t1⟩ →
       t2 - t1 < cacheTimeoutSecs →
       (executeCommand runner2 t2 (executeCommand runner1 t1 st command requireSudo).state
           command requireSudo).result =
         (executeCommand runner1 t1 st command requireSudo).result ∧
       (executeCommand runner2 t2 (executeCommand runner1 t1 st command requireSudo).state
           command requireSudo).spawned = []) ∧
    (∀ (st : SysState) (command : String) (requireSudo : Bool) (e : CacheEntry)
       (t2 : Nat) (runner : String → Nat → RunOutcome),
       dictGet st.commandCache (cacheKey command st.osType requireSudo) = some e →
       ¬ (t2 - e.timestamp < cacheTimeoutSecs) →
       isCommandSafe command st.osType = true →
       ¬ (st.osType = "darwin" ∧ requireSudo = true ∧
         noCredential st.sudoPassword = true) →
       (executeCommand runner t2 st command requireSudo).spawned =
         [effCommand st command requireSudo]) := by
  constructor
  · intro st command requireSudo runner1 runner2 t1 t2 hstored hfresh
    have hos := executeCommand_osType runner1 t1 st command requireSudo
    set st1 := (executeCommand runner1 t1 st command requireSudo).state with hst1
    have hkey : cacheKey command st1.osType requireSudo =
        cacheKey command st.osType requireSudo := by rw [hos]
    have hlook : freshLookup st1.commandCache
        (cacheKey command st1.osType requireSudo) t2 =
        some (executeCommand runner1 t1 st command requireSudo).result := by
      rw [hkey]
      unfold freshLookup
      rw [hstored]
      simp [hfresh]
    constructor
    · simp only [executeCommand, hlook]
    · simp only [executeCommand, hlook]
  · intro st command requireSudo e t2 runner hstale hexp hsafe hgate
    have hlook : freshLookup st.commandCache
        (cacheKey command st.osType requireSudo) t2 = none := by
      unfold freshLookup
      rw [hstale]
      simp [hexp]
    simp only [executeCommand, hlook, hsafe, if_true]
    rw [if_neg hgate]
    cases runner (effCommand st command requireSudo)
        (getCommandTimeout (effCommand st command requireSudo) st.osType) <;> rfl

/-- Witness for C4: a first call at time 0 caches `ping x` on Linux; the
theorem then yields idempotence at time 10 and expiry at time 30. -/
theorem C4_witness :
    ((executeCommand (fun _ _ => RunOutcome.completed "pong" "" 0) 10
        (executeCommand (fun _ _ => RunOutcome.completed "pong" "" 0) 0
          ⟨"linux", [], none⟩ "ping x" false).state "ping x" false).result =
      (executeCommand (fun _ _ => RunOutcome.completed "pong" "" 0) 0
          ⟨"linux", [], none⟩ "ping x" false).result ∧
     (executeCommand (fun _ _ => RunOutcome.completed "pong" "" 0) 10
        (executeCommand (fun _ _ => RunOutcome.completed "pong" "" 0) 0
          ⟨"linux", [], none⟩ "ping x" false).state "ping x" false).spawned = []) ∧
    (executeCommand (fun _ _ => RunOutcome.completed "pong" "" 0) 30
        (executeCommand (fun _ _ => RunOutcome.completed "pong" "" 0) 0
          ⟨"linux", [], none⟩ "ping x" false).state "ping x" false).spawned =
      ["ping x"] := by
  refine ⟨C4_cache_idempotence_and_expiry.1 ⟨"linux", [], none⟩ "ping x" false
    _ _ 0 10 (by decide) (by decide), ?_⟩
  exact C4_cache_idempotence_and_expiry.2
    (executeCommand (fun _ _ => RunOutcome.completed "pong" "" 0) 0
      ⟨"linux", [], none⟩ "ping x" false).state "ping x" false
    ⟨{ success := true, output := "pong", error := none, returnCode := some 0,
       executionTime := some 0, requiresPassword := false }, 0⟩
    30 _ (by decide) (by decide) (by decide) (by decide)

/-! ## Claim C5 -/

/-- C5: when the subprocess exceeds its classified budget
(`subprocess.TimeoutExpired`), `execute_command` returns `success = false`
with error text `Command timed out after N seconds` where `N` is the
classified budget of the executed command, and the cache is left untouched —
no entry is created even for a cacheable command. -/
theorem C5_timeout_result (st : SysState) (command : String) (requireSudo : Bool)
    (runner : String → Nat → RunOutcome) (now : Nat)
    (hmiss : freshLookup st.commandCache (cacheKey command st.osType requireSudo) now = none)
    (hsafe : isCommandSafe command st.osType = true)
    (hgate : ¬ (st.osType = "darwin" ∧ requireSudo = true ∧
         noCredential st.sudoPassword = true))
    (htmo : runner (effCommand st command requireSudo)
        (getCommandTimeout (effCommand st command requireSudo) st.osType) =
      RunOutcome.timedOut) :
    (executeCommand runner now st command requireSudo).result.success = false ∧
    (executeCommand runner now st command requireSudo).result.error =
      some ("Command timed out after " ++
        toString (getCommandTimeout (effCommand st command requireSudo) st.osType) ++
        " seconds") ∧
    (executeCommand runner now st command requireSudo).state.commandCache =
      st.commandCache := by
  simp only [executeCommand, hmiss, hsafe, if_true]
  rw [if_neg hgate, htmo]
  exact ⟨rfl, rfl, rfl⟩

/-- Witness for C5: `ping x` on Linux is classified quick (10 seconds) and a
timing-out run reports exactly that budget, caching nothing. -/
theorem C5_witness :
    (executeCommand (fun _ _ => RunOutcome.timedOut) 0 ⟨"linux", [], none⟩
        "ping x" false).result.success = false ∧
    (executeCommand (fun _ _ => RunOutcome.timedOut) 0 ⟨"linux", [], none⟩
        "ping x" false).result.error =
      some ("Command timed out after " ++
        toString (getCommandTimeout (effCommand ⟨"linux", [], none⟩ "ping x" false)
          "linux") ++ " seconds") ∧
    (executeCommand (fun _ _ => RunOutcome.timedOut) 0 ⟨"linux", [], none⟩
        "ping x" false).state.commandCache = [] :=
  C5_timeout_result ⟨"linux", [], none⟩ "ping x" false
    (fun _ _ => RunOutcome.timedOut) 0 (by decide) (by decide) (by decide) rfl

/-! ## Claim C6 -/

/-- C6: for a completed execution, captured standard output longer than
`MAX_COMMAND_OUTPUT` (10000) characters is returned as its first 10000
characters followed by the truncation marker, and output within the bound is
returned unchanged — output is never cut without the marker. -/
theorem C6_output_truncation (st : SysState) (command : String) (requireSudo : Bool)
    (runner : String → Nat → RunOutcome) (now : Nat)
    (stdout stderr : String) (rc : Int)
    (hmiss : freshLookup st.commandCache (cacheKey command st.osType requireSudo) now = none)
    (hsafe : isCommandSafe command st.osType = true)
    (hgate : ¬ (st.osType = "darwin" ∧ requireSudo = true ∧
         noCredential st.sudoPassword = true))
    (hrun : runner (effCommand st command requireSudo)
        (getCommandTimeout (effCommand st command requireSudo) st.osType) =
      RunOutcome.completed stdout stderr rc) :
    (pyLen stdout > Config.MAX_COMMAND_OUTPUT →
      (executeCommand runner now st command requireSudo).result.output =
        pySlice stdout Config.MAX_COMMAND_OUTPUT ++ "\n... (output truncated)") ∧
    (¬ pyLen stdout > Config.MAX_COMMAND_OUTPUT →
      (executeCommand runner now st command requireSudo).result.output = stdout) := by
  simp only [executeCommand, hmiss, hsafe, if_true]
  rw [if_neg hgate, hrun]
  constructor
  · intro hlong
    simp [hlong]
  · intro hshort
    simp [hshort]

/-- Witness for C6: a 10050-character output is truncated with the marker; a
short output is returned verbatim. -/
theorem C6_witness :
    (executeCommand
        (fun _ _ => RunOutcome.completed (String.mk (List.replicate 10050 'a')) "" 0) 0
        ⟨"linux", [], none⟩ "ping x" false).result.output =
      pySlice (String.mk (List.replicate 10050 'a')) Config.MAX_COMMAND_OUTPUT ++
        "\n... (output truncated)" ∧
    (executeCommand (fun _ _ => RunOutcome.completed "pong" "" 0) 0
        ⟨"linux", [], none⟩ "ping x" false).result.output = "pong" := by
  constructor
  · exact (C6_output_truncation ⟨"linux", [], none⟩ "ping x" false
      (fun _ _ => RunOutcome.completed (String.mk (List.replicate 10050 'a')) "" 0) 0
      (String.mk (List.replicate 10050 'a')) "" 0
      (by decide) (by decide) (by decide) rfl).1 (by
        show (List.replicate 10050 'a').length > Config.MAX_COMMAND_OUTPUT
        rw [List.length_replicate]
        norm_num [Config.MAX_COMMAND_OUTPUT])
  · exact (C6_output_truncation ⟨"linux", [], none⟩ "ping x" false
      (fun _ _ => RunOutcome.completed "pong" "" 0) 0 "pong" "" 0
      (by decide) (by decide) (by decide) rfl).2 (by decide)

/-! ## Claim C7 -/

/-- C7 fails as stated: the approved Windows table entry
`DISM /Online /Cleanup-Image /RestoreHealth` contains no blocked substring
(neither raw nor lower-cased), yet validation rejects it, because the
validator lower-cases the command before the case-sensitive
`startswith` comparison against the mixed-case table entry. -/
theorem C7_counterexample :
    ("DISM /Online /Cleanup-Image /RestoreHealth" : String) ∈ Config.WINDOWS_COMMANDS ∧
    allowedCommandsFor "windows" = Config.WINDOWS_COMMANDS ∧
    (Config.BLOCKED_PATTERNS.all fun b =>
      !(pyIn b "DISM /Online /Cleanup-Image /RestoreHealth") &&
      !(pyIn b (pyLower "DISM /Online /Cleanup-Image /RestoreHealth"))) = true ∧
    isCommandSafe "DISM /Online /Cleanup-Image /RestoreHealth" "windows" = false := by
  decide

/-- C7 (amended): (allow direction) every approved prefix of any OS family
that is already fully lower-case and contains no blocked substring passes
validation — mixed-case table entries such as
`DISM /Online /Cleanup-Image /RestoreHealth` are excluded, since the
lower-cased command cannot start with them; (converse direction) validation
accepts a command only if its lower-cased, trimmed form starts with an
approved prefix of the declared OS family and contains zero block-set
entries. -/
theorem C7_policy :
    (∀ (osType : String), ∀ p ∈ allowedCommandsFor osType,
       pyLower p = p →
       (∀ b ∈ Config.BLOCKED_PATTERNS, pyIn b p = false) →
       isCommandSafe p osType = true) ∧
    (∀ (osType command : String), isCommandSafe command osType = true →
       ((allowedCommandsFor osType).any fun a =>
          pyStartsWith (pyStrip (pyLower command)) a) = true ∧
       (∀ b ∈ Config.BLOCKED_PATTERNS, pyIn b (pyStrip (pyLower command)) = false)) := by
  constructor
  · intro osType p hmem hlow hnoblock
    have hany : (Config.BLOCKED_PATTERNS.any fun q => pyIn q (pyLower p)) = false := by
      rw [hlow]
      by_contra hx
      have hx' : (Config.BLOCKED_PATTERNS.any fun q => pyIn q p) = true := by
        revert hx
        cases Config.BLOCKED_PATTERNS.any fun q => pyIn q p <;> simp
      obtain ⟨q, hq, hqin⟩ := List.any_eq_true.mp hx'
      rw [hnoblock q hq] at hqin
      exact Bool.false_ne_true hqin
    simp only [isCommandSafe, hany]
    simp only [Bool.false_eq_true, if_false]
    refine List.any_eq_true.mpr ⟨p, hmem, ?_⟩
    rw [hlow]
    exact List.isPrefixOf_iff_prefix.mpr (List.prefix_refl _)
  · intro osType command hsafe
    unfold isCommandSafe at hsafe
    by_cases hb : (Config.BLOCKED_PATTERNS.any fun q => pyIn q (pyLower command)) = true
    · simp [hb] at hsafe
    · have hsw : ((allowedCommandsFor osType).any fun a =>
          pyStartsWith (pyLower command) a) = true := by
        simpa [hb] using hsafe
      obtain ⟨a, hmem, hpre⟩ := List.any_eq_true.mp hsw
      have hok := tableOk osType a hmem
      simp only [tableEntryOk, Bool.and_eq_true, Bool.not_eq_true'] at hok
      obtain ⟨⟨hne, hh⟩, hl⟩ := hok
      have hne' : a.data ≠ [] := by
        intro hcontra
        rw [hcontra] at hne
        simp at hne
      constructor
      · refine List.any_eq_true.mpr ⟨a, hmem, ?_⟩
        have hpre' := List.isPrefixOf_iff_prefix.mp hpre
        exact List.isPrefixOf_iff_prefix.mpr (prefix_stripChars hne' hh hl hpre')
      · intro b hbmem
        by_contra hcontra
        have hc : pyIn b (pyStrip (pyLower command)) = true := by
          revert hcontra
          cases pyIn b (pyStrip (pyLower command)) <;> simp
        have hinf : strContains (pyLower command).data b.data = true :=
          strContains_of_within (stripChars_within _) hc
        exact hb (List.any_eq_true.mpr ⟨b, hbmem, hinf⟩)

/-- Witness for C7: the all-lower-case approved prefix `ipconfig` is accepted
on Windows, and the accepted command `ping google.com` has a lower-cased,
trimmed form that starts with an approved prefix and matches no block
entry. -/
theorem C7_witness :
    isCommandSafe "ipconfig" "windows" = true ∧
    ((allowedCommandsFor "windows").any fun a =>
      pyStartsWith (pyStrip (pyLower "ping google.com")) a) = true ∧
    (∀ b ∈ Config.BLOCKED_PATTERNS, pyIn b (pyStrip (pyLower "ping google.com")) = false) := by
  refine ⟨C7_policy.1 "windows" "ipconfig" (by decide) (by decide) (by decide), ?_, ?_⟩
  · exact (C7_policy.2 "windows" "ping google.com" (by decide)).1
  · exact (C7_policy.2 "windows" "ping google.com" (by decide)).2

/-! ## Claim C8 -/

/-- C8: the timeout classifier returns 10 s when the lowered command contains
a quick-tier substring, else 15 s when it contains a medium-tier substring,
else 30 s for the slow tiers (including the darwin-only `diskutil`/`ioreg`
branch) and for the default fallback; the quickest-checked tier wins, so the
example `ping x && systeminfo` gets 10 s on every OS. -/
theorem C8_timeout_classifier (command osType : String) :
    ((["ping", "nslookup", "ipconfig", "ifconfig", "echo"].any fun c =>
        pyIn c (pyLower command)) = true →
      getCommandTimeout command osType = 10) ∧
    ((["ping", "nslookup", "ipconfig", "ifconfig", "echo"].any fun c =>
        pyIn c (pyLower command)) = false →
      (["tasklist", "ps", "df", "free", "uname"].any fun c =>
        pyIn c (pyLower command)) = true →
      getCommandTimeout command osType = 15) ∧
    ((["ping", "nslookup", "ipconfig", "ifconfig", "echo"].any fun c =>
        pyIn c (pyLower command)) = false →
      (["tasklist", "ps", "df", "free", "uname"].any fun c =>
        pyIn c (pyLower command)) = false →
      (["systeminfo", "system_profiler", "sfc", "chkdsk"].any fun c =>
        pyIn c (pyLower command)) = true →
      getCommandTimeout command osType = 30) ∧
    ((["ping", "nslookup", "ipconfig", "ifconfig", "echo"].any fun c =>
        pyIn c (pyLower command)) = false →
      (["tasklist", "ps", "df", "free", "uname"].any fun c =>
        pyIn c (pyLower command)) = false →
      getCommandTimeout command osType = 30) ∧
    getCommandTimeout "ping x && systeminfo" osType = 10 := by
  refine ⟨?_, ?_, ?_, ?_, ?_⟩
  · intro h1
    simp [getCommandTimeout, h1, Config.QUICK_COMMAND_TIMEOUT]
  · intro h1 h2
    simp [getCommandTimeout, h1, h2, Config.MEDIUM_COMMAND_TIMEOUT]
  · intro h1 h2 h3
    simp [getCommandTimeout, h1, h2, h3, Config.SLOW_COMMAND_TIMEOUT]
  · intro h1 h2
    simp only [getCommandTimeout, h1, h2, Bool.false_eq_true, if_false]
    split
    · rfl
    · split
      · rfl
      · rfl
  · have h1 : (["ping", "nslookup", "ipconfig", "ifconfig", "echo"].any fun c =>
        pyIn c (pyLower "ping x && systeminfo")) = true := by decide
    simp [getCommandTimeout, h1, Config.QUICK_COMMAND_TIMEOUT]

/-- Witness for C8: `tasklist /v` contains no quick-tier substring, contains
the medium-tier substring `tasklist`, and is classified at 15 seconds. -/
theorem C8_witness :
    getCommandTimeout "tasklist /v" "windows" = 15 ∧
    getCommandTimeout "systeminfo" "windows" = 30 := by
  constructor
  · exact (C8_timeout_classifier "tasklist /v" "windows").2.1 (by decide) (by decide)
  · exact (C8_timeout_classifier "systeminfo" "windows").2.2.1 (by decide) (by decide)
      (by decide)

/-! ## Claim C9 -/

/-- C9: `categorize_user_issue` is total into
`{network, performance, storage, system, general}`, testing the five fixed
keyword sets in priority order and returning the first match with `general`
as the catch-all; the spec's three examples hold. -/
theorem C9_categorize (msg : String) :
    categorizeUserIssue msg ∈
      (["network", "performance", "storage", "system", "general"] : List String) ∧
    ((["internet", "wifi", "network", "connection", "ping", "dns"].any fun w =>
        pyIn w (pyLower msg)) = true →
      categorizeUserIssue msg = "network") ∧
    ((["internet", "wifi", "network", "connection", "ping", "dns"].any fun w =>
        pyIn w (pyLower msg)) = false →
      (["slow", "freeze", "crash", "performance", "lag"].any fun w =>
        pyIn w (pyLower msg)) = true →
      categorizeUserIssue msg = "performance") ∧
    ((["internet", "wifi", "network", "connection", "ping", "dns"].any fun w =>
        pyIn w (pyLower msg)) = false →
      (["slow", "freeze", "crash", "performance", "lag"].any fun w =>
        pyIn w (pyLower msg)) = false →
      (["disk", "storage", "space", "full", "memory"].any fun w =>
        pyIn w (pyLower msg)) = true →
      categorizeUserIssue msg = "storage") ∧
    ((["internet", "wifi", "network", "connection", "ping", "dns"].any fun w =>
        pyIn w (pyLower msg)) = false →
      (["slow", "freeze", "crash", "performance", "lag"].any fun w =>
        pyIn w (pyLower msg)) = false →
      (["disk", "storage", "space", "full", "memory"].any fun w =>
        pyIn w (pyLower msg)) = false →
      (["error", "blue screen", "kernel", "system"].any fun w =>
        pyIn w (pyLower msg)) = true →
      categorizeUserIssue msg = "system") ∧
    ((["internet", "wifi", "network", "connection", "ping", "dns"].any fun w =>
        pyIn w (pyLower msg)) = false →
      (["slow", "freeze", "crash", "performance", "lag"].any fun w =>
        pyIn w (pyLower msg)) = false →
      (["disk", "storage", "space", "full", "memory"].any fun w =>
        pyIn w (pyLower msg)) = false →
      (["error", "blue screen", "kernel", "system"].any fun w =>
        pyIn w (pyLower msg)) = false →
      categorizeUserIssue msg = "general") ∧
    categorizeUserIssue "my wifi keeps disconnecting" = "network" ∧
    categorizeUserIssue "disk is full" = "storage" ∧
    categorizeUserIssue "random gibberish" = "general" := by
  refine ⟨?_, ?_, ?_, ?_, ?_, ?_, by decide, by decide, by decide⟩
  · by_cases h1 : (["internet", "wifi", "network", "connection", "ping", "dns"].any
        fun w => pyIn w (pyLower msg)) = true
    · simp [categorizeUserIssue, h1]
    · by_cases h2 : (["slow", "freeze", "crash", "performance", "lag"].any
          fun w => pyIn w (pyLower msg)) = true
      · simp [categorizeUserIssue, h1, h2]
      · by_cases h3 : (["disk", "storage", "space", "full", "memory"].any
            fun w => pyIn w (pyLower msg)) = true
        · simp [categorizeUserIssue, h1, h2, h3]
        · by_cases h4 : (["error", "blue screen", "kernel", "system"].any
              fun w => pyIn w (pyLower msg)) = true
          · simp [categorizeUserIssue, h1, h2, h3, h4]
          · simp [categorizeUserIssue, h1, h2, h3, h4]
  · intro h1
    simp [categorizeUserIssue, h1]
  · intro h1 h2
    simp [categorizeUserIssue, h1, h2]
  · intro h1 h2 h3
    simp [categorizeUserIssue, h1, h2, h3]
  · intro h1 h2 h3 h4
    simp [categorizeUserIssue, h1, h2, h3, h4]
  · intro h1 h2 h3 h4
    simp [categorizeUserIssue, h1, h2, h3, h4]

/-- Witness for C9: `pc is slow` matches no network keyword, matches the
performance keyword `slow`, and is categorized as `performance`. -/
theorem C9_witness : categorizeUserIssue "pc is slow" = "performance" :=
  (C9_categorize "pc is slow").2.2.1 (by decide) (by decide)

/-! ## Claim C10 -/

/-- Shape of the cache after one `execute_command` call: either unchanged, or
one insertion under the call's own key, performed only after the command
passed validation. -/
theorem executeCommand_cache_cases (runner : String → Nat → RunOutcome) (now : Nat)
    (st : SysState) (command : String) (requireSudo : Bool) :
    (executeCommand runner now st command requireSudo).state.commandCache =
      st.commandCache ∨
    (isCommandSafe command st.osType = true ∧
     ∃ e, (executeCommand runner now st command requireSudo).state.commandCache =
       dictInsert st.commandCache (cacheKey command st.osType requireSudo) e) := by
  simp only [executeCommand]
  split
  · left; rfl
  · split
    · next hsafe =>
        split
        · left; rfl
        · split
          · by_cases hq : isQuickCommand (effCommand st command requireSudo) st.osType = true
            · right
              refine ⟨hsafe, ?_⟩
              rw [if_pos hq]
              exact ⟨_, rfl⟩
            · left
              rw [if_neg hq]
          · left; rfl
          · left; rfl
    · left; rfl

/-- The cache invariant along every reachable state: each entry's key is the
key of some command that passed validation for the instance's OS. -/
theorem cacheInv {st : SysState} (h : Reachable st) :
    ∀ kv ∈ st.commandCache,
      ∃ c rs, kv.1 = cacheKey c st.osType rs ∧ isCommandSafe c st.osType = true := by
  induction h with
  | init osType =>
    intro kv hkv
    simp at hkv
  | exec runner now st' command requireSudo hre ih =>
    have hos := executeCommand_osType runner now st' command requireSudo
    rcases executeCommand_cache_cases runner now st' command requireSudo with
      hsame | ⟨hsafe, e, hins⟩
    · intro kv hkv
      rw [hsame] at hkv
      rw [hos]
      exact ih kv hkv
    · intro kv hkv
      rw [hins] at hkv
      rw [hos]
      unfold dictInsert at hkv
      rcases List.mem_cons.mp hkv with heq | hmemf
      · subst heq
        exact ⟨command, requireSudo, rfl, hsafe⟩
      · exact ih kv (List.mem_filter.mp hmemf).1
  | clear st' hre ih =>
    intro kv hkv
    simp [clearCache] at hkv
  | setpw st' pw hre ih =>
    intro kv hkv
    exact ih kv hkv

/-- C10: in every reachable state, each cache entry was stored under the key
of a command that passed security validation; consequently a command the
validator rejects is never served from the cache — its key is simply never
present, so the cache-before-validation lookup order is harmless
(`clear_cache` only removes entries and preserves this). -/
theorem C10_cache_only_validated (st : SysState) (h : Reachable st) :
    (∀ kv ∈ st.commandCache,
       ∃ c rs, kv.1 = cacheKey c st.osType rs ∧ isCommandSafe c st.osType = true) ∧
    (∀ (command : String) (requireSudo : Bool),
       isCommandSafe command st.osType = false →
       dictGet st.commandCache (cacheKey command st.osType requireSudo) = none) := by
  refine ⟨cacheInv h, ?_⟩
  intro command requireSudo hbad
  cases hd : dictGet st.commandCache (cacheKey command st.osType requireSudo) with
  | none => rfl
  | some e =>
    exfalso
    obtain ⟨c, rs, hkey, hsafe⟩ := cacheInv h _ (dictGet_mem hd)
    obtain ⟨hc, _⟩ := cacheKey_inj hkey
    rw [← hc] at hsafe
    rw [hbad] at hsafe
    exact Bool.false_ne_true hsafe

/-- Witness for C10: after a real `ping x` execution on Linux (a reachable
state with a non-empty cache), the rejected command `wget http://x` has no
cache entry. -/
theorem C10_witness :
    isCommandSafe "wget http://x" "linux" = false ∧
    dictGet (executeCommand (fun _ _ => RunOutcome.completed "pong" "" 0) 0
        ⟨"linux", [], none⟩ "ping x" false).state.commandCache
      (cacheKey "wget http://x" "linux" false) = none := by
  refine ⟨by decide, ?_⟩
  have hr : Reachable (executeCommand (fun _ _ => RunOutcome.completed "pong" "" 0) 0
      ⟨"linux", [], none⟩ "ping x" false).state :=
    Reachable.exec _ _ _ _ _ (Reachable.init "linux")
  exact (C10_cache_only_validated _ hr).2 "wget http://x" false (by decide)

end HelpdeskBot
